import Mathlib

/-!
Verification of the youtube-to-audio application core: a shallow embedding of
`src/app/downloader.py`, `src/app/gui.py`, `src/app/settings.py` and
`src/app/config.py`.

Modelling conventions:
* Python floats are embedded as rationals (ℚ); the arithmetic the code performs
  on progress data (division, multiplication, `max`/`min` clamping, comparison)
  is exact on the values the claims quantify over.
* Paths are embedded as strings, `Path.__truediv__` as string concatenation
  with a separator.
* Callback invocations are embedded as emitted events appended to a trace
  (the value passed to the callback is the value recorded in the trace);
  for reasoning about exceptions raised by callbacks, a second translation of
  the same source lines threads `Except` through the calls.
* Effects of the external collaborators (yt-dlp extraction outcome, ffmpeg
  lookup on PATH, filesystem mkdir, the JSON parse of the settings file) are
  inputs in an explicit environment record.
* Python float formatting `f"{x:.2f}"` is embedded as decimal rounding of the
  rational to two places (`fmt2`); the claims only inspect the structure of the
  formatted message, not binary-float digit behaviour.
-/

namespace YtAudio

/-- An event emitted by the downloader to its callbacks:
`status_cb` receives strings, `progress_cb` receives percentages. -/
inductive Emit where
  | status (msg : String)
  | progress (pct : ℚ)
deriving DecidableEq, Repr

/-- `DownloadResult` dataclass of `src/app/downloader.py`. -/
structure DownloadResult where
  file_path : String
  title : String
  ext : String
deriving DecidableEq, Repr

/-- The metadata record returned by `ydl.extract_info`; the three keys the code
reads, each possibly absent. -/
structure Info where
  title : Option String
  id : Option String
  ext : Option String
deriving DecidableEq, Repr

/-- A progress record passed by the external fetch tool to the progress hook;
the keys read by `AudioDownloader._progress_hook`, each possibly absent. -/
structure ProgRecord where
  status : Option String
  downloaded_bytes : Option ℚ
  total_bytes : Option ℚ
  total_bytes_estimate : Option ℚ
  speed : Option ℚ
  eta : Option Int
deriving DecidableEq, Repr

/-- Python truthiness of an optional number, as used by the `x or y` chains in
`_progress_hook`: `None` and `0` are falsy. -/
def truthyQ : Option ℚ → Option ℚ
  | none => none
  | some v => if v = 0 then none else some v

/-- `downloaded = d.get("downloaded_bytes") or 0` (downloader.py line 105). -/
def hook_downloaded (d : ProgRecord) : ℚ :=
  (truthyQ d.downloaded_bytes).getD 0

/-- `total = d.get("total_bytes") or d.get("total_bytes_estimate") or 0`
(downloader.py line 106). -/
def hook_total (d : ProgRecord) : ℚ :=
  match truthyQ d.total_bytes with
  | some v => v
  | none =>
    match truthyQ d.total_bytes_estimate with
    | some v => v
    | none => 0

/-- Decimal two-place rendering of a rational, embedding `f"{x:.2f}"`. -/
def fmt2 (q : ℚ) : String :=
  let c : Int := round (q * 100)
  let sign := if c < 0 then "-" else ""
  let a := c.natAbs
  let fp := a % 100
  let fps := if fp < 10 then "0" ++ toString fp else toString fp
  sign ++ toString (a / 100) ++ "." ++ fps

/-- The state of an `AudioDownloader` instance: output directory and whether
the optional callbacks were supplied. -/
structure AudioDownloader where
  out_dir : String
  has_status_cb : Bool
  has_progress_cb : Bool
deriving DecidableEq, Repr

namespace AudioDownloader

/-- `_emit_status` (downloader.py lines 131-133): calls `status_cb msg` when a
status callback is present. The trace records the delivered value. -/
def emit_status (dl : AudioDownloader) (msg : String) : List Emit :=
  if dl.has_status_cb then [Emit.status msg] else []

/-- `_emit_progress` (downloader.py lines 135-137): calls the progress callback
with `max(0.0, min(100.0, pct))` when a progress callback is present. -/
def emit_progress (dl : AudioDownloader) (pct : ℚ) : List Emit :=
  if dl.has_progress_cb then [Emit.progress (max 0 (min 100 pct))] else []

/-- The rate part appended by `if speed:` (downloader.py lines 121-122):
present exactly when `d.get("speed")` is truthy. -/
def speed_parts (d : ProgRecord) : List String :=
  match truthyQ d.speed with
  | some sp => ["@ " ++ fmt2 (sp / 1048576) ++ " MiB/s"]
  | none => []

/-- The ETA part appended by `if eta is not None:` (downloader.py lines
123-124): present exactly when the record carries an `eta` key. -/
def eta_parts (d : ProgRecord) : List String :=
  match d.eta with
  | some e => ["ETA " ++ toString e ++ "s"]
  | none => []

/-- The message-part list built in the `downloading` branch of
`_progress_hook` (downloader.py lines 115-124). -/
def hook_msg_parts (d : ProgRecord) : List String :=
  let downloaded := hook_downloaded d
  let total := hook_total d
  let first :=
    if total > 0 then
      fmt2 (downloaded / 1048576) ++ " / " ++ fmt2 (total / 1048576) ++ " MiB"
    else
      fmt2 (downloaded / 1048576) ++ " MiB"
  first :: (speed_parts d ++ eta_parts d)

/-- `_progress_hook` (downloader.py lines 101-129), emission-trace view. -/
def progress_hook (dl : AudioDownloader) (d : ProgRecord) : List Emit :=
  match d.status with
  | some st =>
    if st = "downloading" then
      let downloaded := hook_downloaded d
      let total := hook_total d
      (if total > 0 then dl.emit_progress ((downloaded / total) * 100) else [])
        ++ dl.emit_status ("Downloading: " ++ String.intercalate " " (hook_msg_parts d))
    else if st = "finished" then
      dl.emit_status "Download finished. Finalizing…"
    else []
  | none => []

end AudioDownloader

/-- The message of the `RuntimeError` raised by `_ensure_ffmpeg_available`
(downloader.py lines 95-99). -/
def FFMPEG_MISSING_MSG : String :=
  "FFmpeg is required for MP3 conversion but was not found on PATH.\n\n" ++
  "Install FFmpeg and ensure \x27ffmpeg\x27 and \x27ffprobe\x27 are available in your terminal.\n" ++
  "Then restart the app."

/-- The environment one `download_audio` call runs in: whether ffmpeg/ffprobe
resolve on PATH, the progress records the external tool delivers to the hook,
and the outcome of `ydl.extract_info` (metadata, or the raised exception's
message). -/
structure FetchEnv where
  ffmpeg_on_path : Bool
  ffprobe_on_path : Bool
  hook_records : List ProgRecord
  extract : Except String Info
deriving Repr

namespace AudioDownloader

/-- `_ensure_ffmpeg_available` (downloader.py lines 91-99): raises when either
`shutil.which("ffmpeg")` or `shutil.which("ffprobe")` fails. -/
def ensure_ffmpeg_available (env : FetchEnv) : Except String Unit :=
  if env.ffmpeg_on_path = false ∨ env.ffprobe_on_path = false then
    Except.error FFMPEG_MISSING_MSG
  else
    Except.ok ()

/-- `download_audio` (downloader.py lines 44-65): the trace of values delivered
to the callbacks, paired with the returned result or the raised exception's
message. -/
def download_audio (dl : AudioDownloader) (env : FetchEnv)
    (output_format : String) : List Emit × Except String DownloadResult :=
  match (if output_format = "mp3" then ensure_ffmpeg_available env else Except.ok ()) with
  | Except.error e => ([], Except.error e)
  | Except.ok _ =>
    let prep := dl.emit_status "Preparing download…"
    let hookEvs := (env.hook_records.map dl.progress_hook).flatten
    match env.extract with
    | Except.error e => (prep ++ hookEvs, Except.error e)
    | Except.ok info =>
      let title := info.title.getD "output"
      let video_id := info.id.getD "unknown"
      let ext := if output_format = "mp3" then "mp3" else info.ext.getD "webm"
      let file_path := dl.out_dir ++ "/" ++ title ++ " [" ++ video_id ++ "]." ++ ext
      (prep ++ hookEvs ++ dl.emit_status "Done." ++ dl.emit_progress 100,
       Except.ok ⟨file_path, title, ext⟩)

end AudioDownloader

/-! ## Exception-flow translation of the progress-callback adaptation

`_progress_hook` and the `_emit_*` helpers (downloader.py lines 101-137)
contain no `try`/`except`: a callback invocation that raises propagates out of
the hook to its caller.  This second translation of the same lines threads
`Except` through the callback calls to make that control flow explicit. -/

/-- `_emit_status` with a callback that may raise (downloader.py lines
131-133): the call is unguarded. -/
def emit_status_cb (cb : String → Except String Unit) (msg : String) :
    Except String Unit :=
  cb msg

/-- `_emit_progress` with a callback that may raise (downloader.py lines
135-137): the clamped value is passed to the unguarded call. -/
def emit_progress_cb (cb : ℚ → Except String Unit) (pct : ℚ) :
    Except String Unit :=
  cb (max 0 (min 100 pct))

/-- `_progress_hook` (downloader.py lines 101-129) with callbacks that may
raise. The source wraps no handler around the callback invocations, so an
exception from either callback is returned to the hook's caller. -/
def progress_hook_cb (status_cb : String → Except String Unit)
    (progress_cb : ℚ → Except String Unit) (d : ProgRecord) :
    Except String Unit :=
  match d.status with
  | some st =>
    if st = "downloading" then
      let downloaded := hook_downloaded d
      let total := hook_total d
      do
        if total > 0 then
          emit_progress_cb progress_cb ((downloaded / total) * 100)
        emit_status_cb status_cb
          ("Downloading: " ++ String.intercalate " " (AudioDownloader.hook_msg_parts d))
    else if st = "finished" then
      emit_status_cb status_cb "Download finished. Finalizing…"
    else Except.ok ()
  | none => Except.ok ()

/-! ## GUI: events, worker, submission gate, poll loop (`src/app/gui.py`) -/

/-- `UiEvent` dataclass (gui.py lines 23-26): the tagged union carried on the
worker→UI queue, with each kind's payload typed as the code uses it. -/
inductive UiEvent where
  | status (msg : String)
  | progress (pct : ℚ)
  | done (r : DownloadResult)
  | error (msg : String)
deriving DecidableEq, Repr

/-- The worker's `status_cb` / `progress_cb` closures (gui.py lines 195-199)
wrap each delivered callback value in a `UiEvent` and enqueue it. -/
def toUiEvent : Emit → UiEvent
  | Emit.status m => UiEvent.status m
  | Emit.progress p => UiEvent.progress p

/-- `ev.kind in {"done", "error"}`: the terminal events of a job. -/
def isTerminal : UiEvent → Bool
  | UiEvent.done _ => true
  | UiEvent.error _ => true
  | _ => false

/-- Number of terminal events in a queue trace. -/
def countTerminal (evs : List UiEvent) : ℕ :=
  (evs.filter isTerminal).length

/-- Environment of one `_download_worker` run: the outcome of the
`out_dir.mkdir` call in `AudioDownloader.__init__` (downloader.py line 42) and
the fetch environment of the `download_audio` call. -/
structure WorkerEnv where
  mkdir_ok : Except String Unit
  fetch : FetchEnv
deriving Repr

/-- `_download_worker` (gui.py lines 194-210): the sequence of `UiEvent`s the
worker body enqueues. The whole body runs inside `try: ... except Exception as
e: put(UiEvent("error", str(e)))`; on success the result is wrapped in
`UiEvent("done", result)`. -/
def download_worker (env : WorkerEnv) (out_dir : String)
    (output_format : String) : List UiEvent :=
  match env.mkdir_ok with
  | Except.error e => [UiEvent.error e]
  | Except.ok _ =>
    let dl : AudioDownloader := ⟨out_dir, true, true⟩
    let (emits, outcome) := dl.download_audio env.fetch output_format
    match outcome with
    | Except.ok r => emits.map toUiEvent ++ [UiEvent.done r]
    | Except.error e => emits.map toUiEvent ++ [UiEvent.error e]

/-- The worker handle: `self._worker` with its `is_alive()` predicate. -/
structure Worker where
  alive : Bool
deriving DecidableEq, Repr

/-- The UI-owned state touched by `on_convert_clicked` and `_poll_events`:
worker handle, input fields, busy flag, progress bar value, status line, log. -/
structure AppState where
  worker : Option Worker
  url_var : String
  format_label : String
  save_out_dir : String
  busy : Bool
  progress_value : ℚ
  status_var : String
  log : List String
deriving DecidableEq, Repr

/-- Side effects of the UI handlers other than state mutation: message boxes,
the mkdir of the output directory, and thread creation/start. -/
inductive UiAction where
  | show_info (title msg : String)
  | show_warning (title msg : String)
  | show_error_box (title msg : String)
  | ensure_output_dir (dir : String)
  | start_worker (url : String) (output_format : String) (out_dir : String)
deriving DecidableEq, Repr

/-- `OUTPUT_FORMATS` (config.py lines 26-29). -/
def OUTPUT_FORMATS : List (String × String) :=
  [("Best (original)", "best"), ("MP3 (requires FFmpeg)", "mp3")]

/-- `self._format_label_to_value.get(fmt_label, "best")` (gui.py lines 100,
175). -/
def format_label_to_value (label : String) : String :=
  match (OUTPUT_FORMATS.find? (fun p => p.1 = label)).map Prod.snd with
  | some v => v
  | none => "best"

/-- Python `str.strip()`: drop leading and trailing whitespace. -/
def py_strip (s : String) : String :=
  String.mk
    (((s.toList.dropWhile Char.isWhitespace).reverse.dropWhile
        Char.isWhitespace).reverse)

/-- `if self._worker and self._worker.is_alive()` (gui.py line 165). -/
def worker_alive (s : AppState) : Bool :=
  match s.worker with
  | some w => w.alive
  | none => false

/-- `_set_status` (gui.py lines 236-237). -/
def set_status (s : AppState) (msg : String) : AppState :=
  { s with status_var := msg }

/-- `_set_progress` (gui.py lines 239-240): the widget value is the clamped
percentage. -/
def set_progress (s : AppState) (pct : ℚ) : AppState :=
  { s with progress_value := max 0 (min 100 pct) }

/-- `_append_log` (gui.py lines 242-246). -/
def append_log (s : AppState) (msg : String) : AppState :=
  { s with log := s.log ++ [msg] }

/-- `_set_busy` (gui.py lines 248-253): the busy flag summarises the widget
enabled/disabled states it drives. -/
def set_busy (s : AppState) (b : Bool) : AppState :=
  { s with busy := b }

/-- `on_convert_clicked` (gui.py lines 164-192): busy gate, empty-URL guard,
then busy/progress/status/log mutations and worker creation and start. -/
def on_convert_clicked (s : AppState) : AppState × List UiAction :=
  if worker_alive s then
    (s, [UiAction.show_info "Busy" "A download is already running."])
  else
    let url := py_strip s.url_var
    if url = "" then
      (s, [UiAction.show_warning "Missing URL" "Please paste a YouTube URL first."])
    else
      let fmt_label := s.format_label
      let output_format := format_label_to_value fmt_label
      let s1 := set_busy s true
      let s2 := set_progress s1 0
      let s3 := set_status s2 "Starting…"
      let s4 := append_log s3 ("URL: " ++ url)
      let s5 := append_log s4 ("Format: " ++ fmt_label)
      let s6 := append_log s5 ("Save to: " ++ s.save_out_dir)
      let s7 := { s6 with worker := some ⟨true⟩ }
      (s7, [UiAction.ensure_output_dir s.save_out_dir,
            UiAction.start_worker url output_format s.save_out_dir])

/-- Applying one dequeued event in `_poll_events` (gui.py lines 216-230). -/
def apply_event (s : AppState) (ev : UiEvent) : AppState × List UiAction :=
  match ev with
  | UiEvent.status m => (set_status s m, [])
  | UiEvent.progress p => (set_progress s p, [])
  | UiEvent.done r =>
    let s1 := set_status s ("Saved: " ++ r.file_path)
    let s2 := append_log s1 ("✅ Saved: " ++ r.file_path)
    (set_busy s2 false, [])
  | UiEvent.error m =>
    let s1 := set_status s "Error."
    let s2 := append_log s1 ("❌ Error: " ++ m)
    (set_busy s2 false, [UiAction.show_error_box "Download failed" m])

/-- Result of one `_poll_events` tick: final UI state, events still queued
(left behind if an application raised), the side effects performed, the
message of an exception that escaped the drain (if any), and whether
`self.after(POLL_MS, self._poll_events)` ran. -/
structure PollTick where
  state : AppState
  remaining : List UiEvent
  actions : List UiAction
  raised : Option String
  rescheduled : Bool
deriving Repr

/-- The `while True: ev = self._events.get_nowait() ...` drain of
`_poll_events` (gui.py lines 213-232), parametrised by the per-event
application (which touches Tk widgets and may raise): pops non-blockingly
until the queue is empty, applying each event in arrival order; an exception
while applying stops the drain, leaving later events queued. -/
def poll_drain (app : AppState → UiEvent → Except String (AppState × List UiAction)) :
    AppState → List UiEvent → List UiAction →
    AppState × List UiEvent × List UiAction × Option String
  | s, [], acts => (s, [], acts, none)
  | s, ev :: rest, acts =>
    match app s ev with
    | Except.ok r => poll_drain app r.1 rest (acts ++ r.2)
    | Except.error e => (s, rest, acts, some e)

/-- `_poll_events` (gui.py lines 212-234): the drain runs inside
`try: ... except queue.Empty: pass finally: self.after(POLL_MS, ...)`, so the
tick reschedules itself on every control path. -/
def poll_events (app : AppState → UiEvent → Except String (AppState × List UiAction))
    (s : AppState) (q : List UiEvent) : PollTick :=
  let r := poll_drain app s q []
  ⟨r.1, r.2.1, r.2.2.1, r.2.2.2, true⟩

/-- The per-event application of the source when no Tk call raises: exactly
`apply_event`, lifted into the fallible interface of the drain. -/
def apply_event_ok (s : AppState) (ev : UiEvent) :
    Except String (AppState × List UiAction) :=
  Except.ok (apply_event s ev)

/-! ## Settings persistence (`src/app/settings.py`, `src/app/config.py`)

The JSON text serialisation is delegated by the source to Python's `json`
module (an external collaborator); the embedding works at the level of parsed
JSON values, and models the settings file's state as
`Option (Except String JVal)`: `none` when the file does not exist,
`some (Except.error _)` when `json.loads` raises on its text, and
`some (Except.ok v)` when it parses to the value `v`. -/

/-- A parsed JSON value. -/
inductive JVal where
  | str (s : String)
  | num (q : ℚ)
  | bool (b : Bool)
  | null
  | arr (xs : List JVal)
  | obj (fields : List (String × JVal))
deriving Repr

/-- The environment `_default_save_root` (config.py lines 14-17) reads: the
home directory and whether `home / "Downloads"` exists. -/
structure SysEnv where
  home : String
  downloads_exists : Bool
deriving DecidableEq, Repr

/-- `_default_save_root` (config.py lines 14-17): the Downloads folder when it
exists, else the home folder. -/
def default_save_root (env : SysEnv) : String :=
  if env.downloads_exists then env.home ++ "/Downloads" else env.home

/-- `AppSettings` dataclass (settings.py lines 27-29); its default
`save_root` is `DEFAULT_SAVE_ROOT`. -/
structure AppSettings where
  save_root : String
deriving DecidableEq, Repr

/-- `data.get(key)` on a parsed JSON object's field list. -/
def jget (fields : List (String × JVal)) (key : String) : Option JVal :=
  (fields.find? (fun p => p.1 = key)).map Prod.snd

/-- `save_settings` (settings.py lines 46-49): the JSON value whose rendering
is written to the settings file, `{"save_root": str(settings.save_root)}`. -/
def save_settings (settings : AppSettings) : JVal :=
  JVal.obj [("save_root", JVal.str settings.save_root)]

/-- `load_settings` (settings.py lines 32-43): default when the file is
missing; parse the file, read `save_root` with `DEFAULT_SAVE_ROOT` as the
`.get` default; any exception (parse failure, `.get` on a non-object,
`Path(...)` on a non-string) falls back to the default settings. -/
def load_settings (env : SysEnv) (file : Option (Except String JVal)) :
    AppSettings :=
  match file with
  | none => ⟨default_save_root env⟩
  | some (Except.error _) => ⟨default_save_root env⟩
  | some (Except.ok v) =>
    match v with
    | JVal.obj fields =>
      match jget fields "save_root" with
      | some (JVal.str s) => ⟨s⟩
      | some _ => ⟨default_save_root env⟩
      | none => ⟨default_save_root env⟩
    | _ => ⟨default_save_root env⟩

/-! ## Theorems -/

/-- The worker's callback closures enqueue only status and progress events;
neither is terminal. -/
theorem countTerminal_map_toUiEvent (l : List Emit) :
    (l.map toUiEvent).filter isTerminal = [] := by
  induction l with
  | nil => rfl
  | cons e rest ih =>
    cases e <;> simpa [toUiEvent, isTerminal] using ih

/-- Claim C1: the worker body `_download_worker` enqueues exactly one terminal
event per run — `UiEvent.done` with the result on success, `UiEvent.error`
with the exception message on any raised exception (including a failure of the
`mkdir` in the downloader's constructor) — never zero and never more than
one. -/
theorem worker_enqueues_exactly_one_terminal_event (env : WorkerEnv)
    (out_dir output_format : String) :
    countTerminal (download_worker env out_dir output_format) = 1 ∧
    (download_worker env out_dir output_format).filter isTerminal =
      (match env.mkdir_ok with
       | Except.error e => [UiEvent.error e]
       | Except.ok _ =>
         match ((⟨out_dir, true, true⟩ : AudioDownloader).download_audio
             env.fetch output_format).2 with
         | Except.ok r => [UiEvent.done r]
         | Except.error e => [UiEvent.error e]) := by
  have key : (download_worker env out_dir output_format).filter isTerminal =
      (match env.mkdir_ok with
       | Except.error e => [UiEvent.error e]
       | Except.ok _ =>
         match ((⟨out_dir, true, true⟩ : AudioDownloader).download_audio
             env.fetch output_format).2 with
         | Except.ok r => [UiEvent.done r]
         | Except.error e => [UiEvent.error e]) := by
    cases hmk : env.mkdir_ok with
    | error e => simp [download_worker, hmk, isTerminal]
    | ok u =>
      rcases hda : (⟨out_dir, true, true⟩ : AudioDownloader).download_audio
          env.fetch output_format with ⟨emits, outcome⟩
      cases outcome with
      | ok r =>
        simp [download_worker, hmk, hda, List.filter_append,
          countTerminal_map_toUiEvent, isTerminal]
      | error e =>
        simp [download_worker, hmk, hda, List.filter_append,
          countTerminal_map_toUiEvent, isTerminal]
  refine ⟨?_, key⟩
  rw [countTerminal, key]
  cases env.mkdir_ok with
  | error e => rfl
  | ok u =>
    cases ((⟨out_dir, true, true⟩ : AudioDownloader).download_audio
        env.fetch output_format).2 <;> rfl

/-- A state whose worker handle is live. -/
def sample_busy_state : AppState :=
  ⟨some ⟨true⟩, "https://youtu.be/x", "Best (original)", "/out", true, 0, "Starting…", []⟩

/-- Claim C2: while a worker handle exists and is alive, `on_convert_clicked`
only shows the Busy info box: the state (worker handle included) is unchanged
and no `start_worker` action is produced, so no second thread is created or
started. -/
theorem busy_gate_rejects_second_submission (s : AppState)
    (h : worker_alive s = true) :
    on_convert_clicked s =
      (s, [UiAction.show_info "Busy" "A download is already running."]) := by
  simp [on_convert_clicked, h]

/-- Witness for the busy-gate theorem at a concrete busy state. -/
theorem busy_gate_rejects_second_submission_witness :
    worker_alive sample_busy_state = true ∧
    on_convert_clicked sample_busy_state =
      (sample_busy_state,
       [UiAction.show_info "Busy" "A download is already running."]) :=
  ⟨rfl, busy_gate_rejects_second_submission sample_busy_state rfl⟩

/-- An idle state whose URL entry holds only whitespace. -/
def sample_blank_url_state : AppState :=
  ⟨none, "   ", "Best (original)", "/out", false, 0, "Ready.", []⟩

/-- Claim C10: with no live worker, a submission whose URL is empty after
stripping is rejected by `on_convert_clicked` with only the Missing-URL
warning: the state — busy flag, progress value, status text, worker handle —
is unchanged and no worker is started. -/
theorem empty_url_submission_rejected (s : AppState)
    (h1 : worker_alive s = false) (h2 : py_strip s.url_var = "") :
    on_convert_clicked s =
      (s, [UiAction.show_warning "Missing URL" "Please paste a YouTube URL first."]) := by
  simp [on_convert_clicked, h1, h2]

/-- Witness for the empty-URL rejection at a concrete whitespace-only URL. -/
theorem empty_url_submission_rejected_witness :
    worker_alive sample_blank_url_state = false ∧
    py_strip sample_blank_url_state.url_var = "" ∧
    on_convert_clicked sample_blank_url_state =
      (sample_blank_url_state,
       [UiAction.show_warning "Missing URL" "Please paste a YouTube URL first."]) :=
  ⟨rfl, by decide,
   empty_url_submission_rejected sample_blank_url_state rfl (by decide)⟩

/-- Claim C3: `_emit_progress` delivers to the progress callback exactly
`max 0 (min 100 x)`, which lies in `[0, 100]` for every `x`; and
`_set_progress` applies the same clamp again, so the value stored in the UI
progress widget lies in `[0, 100]` for every raw input. -/
theorem progress_values_clamped_to_unit_range (dir : String) (s : AppState)
    (x : ℚ) :
    AudioDownloader.emit_progress ⟨dir, true, true⟩ x =
      [Emit.progress (max 0 (min 100 x))] ∧
    0 ≤ max 0 (min 100 x) ∧ max 0 (min 100 x) ≤ 100 ∧
    (set_progress s x).progress_value = max 0 (min 100 x) ∧
    0 ≤ (set_progress s x).progress_value ∧
    (set_progress s x).progress_value ≤ 100 := by
  have hub : max (0 : ℚ) (min 100 x) ≤ 100 :=
    max_le (by norm_num) (min_le_left 100 x)
  exact ⟨rfl, le_max_left 0 _, hub, rfl, le_max_left 0 _, hub⟩

/-- Claim C4: when ffmpeg or ffprobe is not resolvable on PATH, an mp3-format
`download_audio` call returns the ffmpeg error immediately, with an empty
emission trace — so before `Status("Preparing download…")`, before any hook
event and independently of the extraction outcome (the equation holds for
every `hook_records` and `extract`, i.e. the failure precedes all network
activity) — and the message carries the installation guidance text. -/
theorem mp3_without_ffmpeg_fails_before_any_event (dl : AudioDownloader)
    (env : FetchEnv)
    (h : env.ffmpeg_on_path = false ∨ env.ffprobe_on_path = false) :
    dl.download_audio env "mp3" = ([], Except.error FFMPEG_MISSING_MSG) ∧
    ∃ pre post, FFMPEG_MISSING_MSG = pre ++ ("Install FFmpeg" ++ post) := by
  constructor
  · simp [AudioDownloader.download_audio, AudioDownloader.ensure_ffmpeg_available, h]
  · exact ⟨"FFmpeg is required for MP3 conversion but was not found on PATH.\n\n",
      " and ensure \x27ffmpeg\x27 and \x27ffprobe\x27 are available in your terminal.\n" ++
        "Then restart the app.", rfl⟩

/-- A fetch environment in which ffmpeg is missing from PATH but the network
extraction would succeed. -/
def sample_no_ffmpeg_env : FetchEnv :=
  ⟨false, true, [⟨some "downloading", some 1, some 2, none, none, none⟩],
   Except.ok ⟨some "t", some "i", some "webm"⟩⟩

/-- Witness for the missing-ffmpeg failure at a concrete environment. -/
theorem mp3_without_ffmpeg_fails_before_any_event_witness :
    (sample_no_ffmpeg_env.ffmpeg_on_path = false ∨
      sample_no_ffmpeg_env.ffprobe_on_path = false) ∧
    (⟨"/out", true, true⟩ : AudioDownloader).download_audio sample_no_ffmpeg_env "mp3" =
      ([], Except.error FFMPEG_MISSING_MSG) :=
  ⟨Or.inl rfl,
   (mp3_without_ffmpeg_fails_before_any_event ⟨"/out", true, true⟩
      sample_no_ffmpeg_env (Or.inl rfl)).1⟩

/-- A status callback that raises. -/
def boom_status_cb : String → Except String Unit :=
  fun _ => Except.error "boom"

/-- A progress callback that returns normally. -/
def ok_progress_cb : ℚ → Except String Unit :=
  fun _ => Except.ok ()

/-- A well-formed `downloading` progress record. -/
def downloading_record : ProgRecord :=
  ⟨some "downloading", some 1048576, some 2097152, none, none, none⟩

/-- Claim C5 counterexample: `_progress_hook` wraps no handler around the
callback invocations, so a callback exception is NOT swallowed — on a concrete
downloading record with a raising status callback the hook itself raises
(returns the callback's exception to its caller) instead of completing
normally. -/
theorem callback_exception_not_swallowed_cex :
    progress_hook_cb boom_status_cb ok_progress_cb downloading_record =
      Except.error "boom" ∧
    progress_hook_cb boom_status_cb ok_progress_cb downloading_record ≠
      Except.ok () := by
  have h1 : progress_hook_cb boom_status_cb ok_progress_cb downloading_record =
      Except.error "boom" := rfl
  exact ⟨h1, fun hc => Except.noConfusion (h1.symm.trans hc)⟩

/-- Claim C5 amended: an exception raised inside the callback body propagates
out of `_progress_hook` unchanged for every `downloading` record — the
adaptation swallows nothing. -/
theorem callback_exception_propagates_from_hook (e : String) (d : ProgRecord)
    (h : d.status = some "downloading") :
    progress_hook_cb (fun _ => Except.error e) (fun _ => Except.ok ()) d =
      Except.error e := by
  by_cases ht : hook_total d > 0 <;>
    simp [progress_hook_cb, h, ht, emit_status_cb, emit_progress_cb]
  rfl

/-- Witness for exception propagation at a concrete downloading record. -/
theorem callback_exception_propagates_from_hook_witness :
    downloading_record.status = some "downloading" ∧
    progress_hook_cb (fun _ => Except.error "cbfail") (fun _ => Except.ok ())
      downloading_record = Except.error "cbfail" :=
  ⟨rfl, callback_exception_propagates_from_hook "cbfail" downloading_record rfl⟩

/-- Claim C8: saving settings with save root `r` and loading them back yields
save root `r`; a missing settings file and an unparseable one both load as the
computed default without raising (`load_settings` is total); and the computed
default is the Downloads folder when it exists, else the home folder. -/
theorem settings_round_trip_and_default (env : SysEnv) (r e : String) :
    load_settings env (some (Except.ok (save_settings ⟨r⟩))) = ⟨r⟩ ∧
    load_settings env none = ⟨default_save_root env⟩ ∧
    load_settings env (some (Except.error e)) = ⟨default_save_root env⟩ ∧
    default_save_root env =
      (if env.downloads_exists then env.home ++ "/Downloads" else env.home) := by
  exact ⟨rfl, rfl, rfl, rfl⟩

/-- The drain of `_poll_events`, run with the per-event application that never
raises: it consumes the whole queue, folds the state through `apply_event` in
arrival order, and no exception escapes. -/
theorem poll_drain_apply_event_ok (q : List UiEvent) :
    ∀ (s : AppState) (acts : List UiAction),
      (poll_drain apply_event_ok s q acts).1 =
        q.foldl (fun st ev => (apply_event st ev).1) s ∧
      (poll_drain apply_event_ok s q acts).2.1 = [] ∧
      (poll_drain apply_event_ok s q acts).2.2.2 = none := by
  induction q with
  | nil => exact fun s acts => ⟨rfl, rfl, rfl⟩
  | cons ev rest ih =>
    intro s acts
    simpa [poll_drain, apply_event_ok] using
      ih (apply_event s ev).1 (acts ++ (apply_event s ev).2)

/-- Claim C9: a `_poll_events` tick reschedules itself for every per-event
application — including ones that raise mid-drain — and, when no application
raises, it pops the queue until empty and applies every event in arrival
order (the final state is the left fold of `apply_event` over the queue). -/
theorem poll_tick_drains_applies_reschedules
    (app : AppState → UiEvent → Except String (AppState × List UiAction))
    (s : AppState) (q : List UiEvent) :
    (poll_events app s q).rescheduled = true ∧
    (poll_events apply_event_ok s q).remaining = [] ∧
    (poll_events apply_event_ok s q).state =
      q.foldl (fun st ev => (apply_event st ev).1) s ∧
    (poll_events apply_event_ok s q).raised = none := by
  obtain ⟨h1, h2, h3⟩ := poll_drain_apply_event_ok q s []
  exact ⟨rfl, h2, h1, h3⟩

/-- Claim C6: a successful `download_audio` run returns a result whose title
falls back to `"output"`, whose id (used in the file path) falls back to
`"unknown"`, and whose extension is `"mp3"` for mp3 format and otherwise the
metadata extension with fallback `"webm"`; and its emission trace ends with
`Status("Done.")` immediately followed by `Progress(100.0)`. -/
theorem success_result_fallbacks_and_final_events (dl : AudioDownloader)
    (env : FetchEnv) (output_format : String) (info : Info)
    (h1 : dl.has_status_cb = true) (h2 : dl.has_progress_cb = true)
    (hex : env.extract = Except.ok info)
    (hff : output_format = "mp3" →
      env.ffmpeg_on_path = true ∧ env.ffprobe_on_path = true) :
    dl.download_audio env output_format =
      ([Emit.status "Preparing download…"] ++
         (env.hook_records.map dl.progress_hook).flatten ++
         [Emit.status "Done.", Emit.progress 100],
       Except.ok
         ⟨dl.out_dir ++ "/" ++ info.title.getD "output" ++ " [" ++
            info.id.getD "unknown" ++ "]." ++
            (if output_format = "mp3" then "mp3" else info.ext.getD "webm"),
          info.title.getD "output",
          if output_format = "mp3" then "mp3" else info.ext.getD "webm"⟩) := by
  have hclamp : max (0 : ℚ) (min 100 100) = 100 := by norm_num
  by_cases hm : output_format = "mp3"
  · obtain ⟨hf1, hf2⟩ := hff hm
    simp [AudioDownloader.download_audio, AudioDownloader.ensure_ffmpeg_available,
      hm, hf1, hf2, hex, AudioDownloader.emit_status, AudioDownloader.emit_progress,
      h1, h2, hclamp]
  · simp [AudioDownloader.download_audio, hm, hex, AudioDownloader.emit_status,
      AudioDownloader.emit_progress, h1, h2, hclamp]

/-- A fetch environment whose extraction succeeds with metadata missing all
three keys, delivering no progress records. -/
def sample_bare_success_env : FetchEnv :=
  ⟨true, true, [], Except.ok ⟨none, none, none⟩⟩

/-- Witness for the success-path theorem: absent metadata at format
`"best"` yields title `"output"`, id `"unknown"`, extension `"webm"`, and the
trailing `Status("Done.")`, `Progress(100.0)` events. -/
theorem success_result_fallbacks_and_final_events_witness :
    sample_bare_success_env.extract = Except.ok ⟨none, none, none⟩ ∧
    ("best" = "mp3" → sample_bare_success_env.ffmpeg_on_path = true ∧
      sample_bare_success_env.ffprobe_on_path = true) ∧
    (⟨"/out", true, true⟩ : AudioDownloader).download_audio
        sample_bare_success_env "best" =
      ([Emit.status "Preparing download…", Emit.status "Done.",
        Emit.progress 100],
       Except.ok ⟨"/out/output [unknown].webm", "output", "webm"⟩) := by
  refine ⟨rfl, by decide, ?_⟩
  have h := success_result_fallbacks_and_final_events
    (⟨"/out", true, true⟩ : AudioDownloader) sample_bare_success_env "best"
    ⟨none, none, none⟩ rfl rfl rfl (by decide)
  simpa using h

/-- Claim C7: on a `downloading` record, when the total (from `total_bytes`,
else `total_bytes_estimate`) is known and positive the hook emits the clamped
`downloaded/total × 100` Progress event and a Status whose first message part
is the `transferred / total MiB` phrase; when the total is unknown or zero it
emits no Progress event and the first message part is the transferred-only
phrase without the `/ total` segment; the rate part is present exactly when
the record's speed is truthy and the ETA part exactly when an `eta` key is
present. -/
theorem downloading_hook_event_shape (dl : AudioDownloader) (d : ProgRecord)
    (h1 : dl.has_status_cb = true) (h2 : dl.has_progress_cb = true)
    (hd : d.status = some "downloading") :
    (0 < hook_total d →
      dl.progress_hook d =
        [Emit.progress (max 0 (min 100 (hook_downloaded d / hook_total d * 100))),
         Emit.status ("Downloading: " ++ String.intercalate " "
           ((fmt2 (hook_downloaded d / 1048576) ++ " / " ++
               fmt2 (hook_total d / 1048576) ++ " MiB") ::
              (AudioDownloader.speed_parts d ++ AudioDownloader.eta_parts d)))]) ∧
    (hook_total d ≤ 0 →
      dl.progress_hook d =
        [Emit.status ("Downloading: " ++ String.intercalate " "
           ((fmt2 (hook_downloaded d / 1048576) ++ " MiB") ::
              (AudioDownloader.speed_parts d ++ AudioDownloader.eta_parts d)))]) ∧
    (AudioDownloader.speed_parts d = [] ↔ truthyQ d.speed = none) ∧
    (AudioDownloader.eta_parts d = [] ↔ d.eta = none) := by
  refine ⟨fun ht => ?_, fun ht => ?_, ?_, ?_⟩
  · simp [AudioDownloader.progress_hook, hd, ht, AudioDownloader.emit_status,
      AudioDownloader.emit_progress, h1, h2, AudioDownloader.hook_msg_parts]
  · have ht2 : ¬ (0 : ℚ) < hook_total d := not_lt.mpr ht
    simp [AudioDownloader.progress_hook, hd, ht2, AudioDownloader.emit_status,
      h1, AudioDownloader.hook_msg_parts]
  · cases hsp : truthyQ d.speed <;> simp [AudioDownloader.speed_parts, hsp]
  · cases het : d.eta <;> simp [AudioDownloader.eta_parts, het]

/-- A downloading record with one MiB of three transferred, a truthy rate and
an ETA. -/
def sample_known_total_record : ProgRecord :=
  ⟨some "downloading", some 1048576, some 3145728, none, some 2097152, some 7⟩

/-- Witness for the hook-shape theorem: concrete known-total record yields
the clamped percentage and the composite `1.00 / 3.00 MiB @ 2.00 MiB/s ETA 7s`
status text. -/
theorem downloading_hook_event_shape_witness :
    sample_known_total_record.status = some "downloading" ∧
    (0 < hook_total sample_known_total_record →
      (⟨"/out", true, true⟩ : AudioDownloader).progress_hook
          sample_known_total_record =
        [Emit.progress (max 0 (min 100 (hook_downloaded sample_known_total_record /
            hook_total sample_known_total_record * 100))),
         Emit.status ("Downloading: " ++ String.intercalate " "
           ((fmt2 (hook_downloaded sample_known_total_record / 1048576) ++ " / " ++
               fmt2 (hook_total sample_known_total_record / 1048576) ++ " MiB") ::
              (AudioDownloader.speed_parts sample_known_total_record ++
                AudioDownloader.eta_parts sample_known_total_record)))]) :=
  ⟨rfl, (downloading_hook_event_shape ⟨"/out", true, true⟩
      sample_known_total_record rfl rfl rfl).1⟩

end YtAudio
